import Mathlib

/-!
Shallow embedding of the `mongodb` package of blocktech-kg/go-mongodb-generic:
the connector (`Connect`) and the generic CRUD controller
(`genericObjectDBCtrl[T]` in genericrud.go), together with a model of the
parts of the MongoDB driver semantics the controller relies on
(document matching, InsertOne/FindOne/UpdateOne/UpdateMany/Find, BSON null
matching, Go map assignment, reflective timestamp stamping).
-/

namespace Mongodb

/-- Model of a BSON value as it occurs in filters, documents and attribute
maps built by the controller.  `vnull` is BSON null (the marshalling of a
Go `nil` interface value, e.g. the `Value` of the zero `bson.E`). -/
inductive Val where
  | vnull
  | vint (n : Int)
  | vstr (s : String)
  | vtime (t : Nat)
  | vbool (b : Bool)
deriving DecidableEq, Repr

/-- A BSON document: an ordered list of key/value pairs (`bson.D`). -/
abbrev Doc := List (String × Val)

/-- A collection: the ordered list of its documents. -/
abbrev Coll := List Doc

/-- First value bound to key `k` in document `d` (BSON field lookup). -/
def lookupField (d : Doc) (k : String) : Option Val :=
  match d with
  | [] => none
  | (k', v) :: rest => if k' = k then some v else lookupField rest k

/-- MongoDB equality-match semantics of one filter pair `{k: v}` against a
document: for a non-null `v` the field must be present and equal; for
`v = null` the match succeeds when the field is absent or bound to null. -/
def fieldMatches (d : Doc) (k : String) (v : Val) : Bool :=
  match lookupField d k with
  | some w => w = v
  | none => v = Val.vnull

/-- A filter document (`bson.D` used as a query): all pairs must match
(logical AND). The empty filter matches every document. -/
def matchesFilter (d : Doc) (f : List (String × Val)) : Bool :=
  f.all (fun kv => fieldMatches d kv.1 kv.2)

/-- The filter-building loop shared by Find/List/Exists/DeleteRange/
UpdateAttributes: `var filter bson.D; for k, v := range sels { filter =
append(filter, bson.E{k, v}) }`.  The Go map is modelled as an association
list of its entries in some iteration order; AND semantics make the order
irrelevant. -/
def buildFilter (sels : List (String × Val)) : List (String × Val) :=
  sels.foldl (fun acc kv => acc ++ [kv]) []

/-- The filter `ListAll` submits: `bson.D{bson.E{}}`, i.e. the single pair
whose key is the zero string and whose value is the marshalling of a nil
interface, BSON null — the query `{"": null}`. -/
def listAllFilter : List (String × Val) := [("", Val.vnull)]

/-- Driver `FindOne`: the first document of the collection matching the
filter, if any. -/
def findOneDoc (coll : Coll) (f : List (String × Val)) : Option Doc :=
  List.find? (fun d => matchesFilter d f) coll

/-- Driver `Find` (cursor contents): every document matching the filter,
in collection order. -/
def findManyDocs (coll : Coll) (f : List (String × Val)) : List Doc :=
  List.filter (fun d => matchesFilter d f) coll

/-- Model of a value of the record type parameter `T`.  The controller only
interprets two optional struct fields, discovered reflectively by name:
`CreatedAt` and `UpdatedAt` (times, modelled as `Nat`).  `none` models a
type that does not declare the field (or declares it unexported, hence not
settable): `FieldByName` then yields an invalid / non-settable value and
the stamping is skipped.  `fields` are the remaining (uninterpreted)
fields as they marshal to BSON. -/
structure Rec where
  createdAt : Option Nat
  updatedAt : Option Nat
  fields : List (String × Val)
deriving DecidableEq, Repr

/-- Error conditions surfaced by the driver model, mirroring the errors the
Go code can receive and return: `mongo.ErrNoDocuments`, a decode failure
of a result document, a `bson.Marshal`/`Unmarshal` failure, and any other
driver (network/write) failure. -/
inductive MErr where
  | errNoDocuments
  | decodeErr (s : String)
  | serializationErr (s : String)
  | driverErr (s : String)
deriving DecidableEq, Repr

/-- The timestamp stamping at the head of `Create`: set `CreatedAt` and
`UpdatedAt` to `now` when the field is present and settable. -/
def stampCreate (now : Nat) (r : Rec) : Rec :=
  let r1 := match r.createdAt with
    | some _ => { r with createdAt := some now }
    | none => r
  match r1.updatedAt with
  | some _ => { r1 with updatedAt := some now }
  | none => r1

/-- The timestamp stamping at the head of `Update`: only `UpdatedAt` is
refreshed. -/
def stampUpdate (now : Nat) (r : Rec) : Rec :=
  match r.updatedAt with
  | some _ => { r with updatedAt := some now }
  | none => r

/-- Marshalling (`bson.Marshal`) of a record: its declared timestamp fields (under the
driver's default lowercased keys) followed by its remaining fields. -/
def marshalRec (r : Rec) : Doc :=
  (match r.createdAt with | some t => [("createdat", Val.vtime t)] | none => []) ++
  (match r.updatedAt with | some t => [("updatedat", Val.vtime t)] | none => []) ++
  r.fields

/-- Setting key `k` to `v` in a field-keyed structure: replaces an existing
binding in place, appends otherwise.  Models both a Go map assignment
(`attrs[k] = v`) and the effect of a `$set` on one field of a document. -/
def setField (d : List (String × Val)) (k : String) (v : Val) :
    List (String × Val) :=
  if d.any (fun kv => kv.1 = k) then
    d.map (fun kv => if kv.1 = k then (k, v) else kv)
  else d ++ [(k, v)]

/-- Applying `$set` with update document `u`: sets every field of `u` on `d`. -/
def applySet (u : Doc) (d : Doc) : Doc :=
  u.foldl (fun acc kv => setField acc kv.1 kv.2) d

/-- Driver `UpdateOne` with filter `{_id: id}` and `{$set: u}`: updates the
first document whose `_id` equals `id`; with no match the collection is
unchanged and no error is reported (matchedCount is simply 0). -/
def updateOneById (coll : Coll) (id : Val) (u : Doc) : Coll :=
  match coll with
  | [] => []
  | d :: rest =>
      if lookupField d "_id" = some id then applySet u d :: rest
      else d :: updateOneById rest id u

/-- Driver `UpdateMany` with an AND filter and `{$set: u}`. -/
def updateManyDocs (coll : Coll) (f : List (String × Val)) (u : Doc) : Coll :=
  coll.map (fun d => if matchesFilter d f then applySet u d else d)

/-- Controller `genericObjectDBCtrl.Find`: builds the AND filter from the selector map,
issues `FindOne` and decodes the result.  `decode` is the driver's
unmarshalling of a result document into `T`, which may fail; an empty
cursor surfaces as `mongo.ErrNoDocuments`. -/
def FindOp (decode : Doc → Except String Rec) (coll : Coll)
    (sels : List (String × Val)) : Except MErr Rec :=
  match findOneDoc coll (buildFilter sels) with
  | none => .error .errNoDocuments
  | some d =>
      match decode d with
      | .error s => .error (.decodeErr s)
      | .ok r => .ok r

/-- Controller `genericObjectDBCtrl.Exists`: wraps `Find`, translating
`mongo.ErrNoDocuments` into `(nil, false, nil)`.  The triple mirrors the Go
return `(item *T, exist bool, err error)`. -/
def ExistsOp (decode : Doc → Except String Rec) (coll : Coll)
    (sels : List (String × Val)) : Option Rec × Bool × Option MErr :=
  match FindOp decode coll sels with
  | .error e => if e = .errNoDocuments then (none, false, none) else (none, false, some e)
  | .ok r => (some r, true, none)

/-- Result of `Create`: the record as left in the caller's memory (it is
passed by pointer and stamped in place), the collection afterwards, and
the returned error. -/
structure CreateResult where
  item : Rec
  coll : Coll
  err : Option MErr
deriving DecidableEq, Repr

/-- Controller `genericObjectDBCtrl.Create`: stamps `CreatedAt`/`UpdatedAt` in place,
then issues `InsertOne`.  `insertFault` injects a driver/write failure of
the `InsertOne` call (e.g. duplicate key). -/
def CreateOp (insertFault : Option MErr) (now : Nat) (coll : Coll)
    (item : Rec) : CreateResult :=
  let stamped := stampCreate now item
  match insertFault with
  | some e => ⟨stamped, coll, some e⟩
  | none => ⟨stamped, coll ++ [marshalRec stamped], none⟩

/-- Result of `Update`: the caller's record after in-place stamping, the
collection afterwards, and the returned error. -/
structure UpdateResult where
  item : Rec
  coll : Coll
  err : Option MErr
deriving DecidableEq, Repr

/-- Controller `genericObjectDBCtrl.Update`: stamps `UpdatedAt` in place, marshals the
whole record to a field map and applies it as a `$set` update restricted
to `{_id: id}`.  `marshalFault` injects a `bson.Marshal`/`Unmarshal`
failure, `storeFault` a failure of the `UpdateOne` call itself. -/
def UpdateOp (marshalFault : Option String) (storeFault : Option MErr)
    (now : Nat) (coll : Coll) (id : Val) (item : Rec) : UpdateResult :=
  let stamped := stampUpdate now item
  match marshalFault with
  | some s => ⟨stamped, coll, some (.serializationErr s)⟩
  | none =>
      match storeFault with
      | some e => ⟨stamped, coll, some e⟩
      | none => ⟨stamped, updateOneById coll id (marshalRec stamped), none⟩

/-- Result of `UpdateAttributes`: the caller's attribute map after the
in-place `attrs["updated_at"] = time.Now()` assignment, the collection
afterwards, and the returned error. -/
structure UpdateAttrsResult where
  attrs : List (String × Val)
  coll : Coll
  err : Option MErr
deriving DecidableEq, Repr

/-- Controller `genericObjectDBCtrl.UpdateAttributes`: builds the AND filter, injects
the current time under the reserved key `updated_at` into the caller's
map, marshals the map and applies it with `UpdateMany`/`$set` to every
matching document. -/
def UpdateAttributesOp (marshalFault : Option String) (storeFault : Option MErr)
    (now : Nat) (coll : Coll) (sels : List (String × Val))
    (attrs : List (String × Val)) : UpdateAttrsResult :=
  let filter := buildFilter sels
  let attrs' := setField attrs "updated_at" (Val.vtime now)
  match marshalFault with
  | some s => ⟨attrs', coll, some (.serializationErr s)⟩
  | none =>
      match storeFault with
      | some e => ⟨attrs', coll, some e⟩
      | none => ⟨attrs', updateManyDocs coll filter attrs', none⟩

/-- The cursor-decoding loop of `List`/`ListAll`: `results := []T{}` (an
allocated, non-nil slice, modelled `some acc`), then one `Decode` per
cursor document, aborting with `(nil, err)` on the first failure. -/
def decodeLoop (decode : Doc → Except String Rec) :
    List Doc → List Rec → Option (List Rec) × Option MErr
  | [], acc => (some acc, none)
  | d :: ds, acc =>
      match decode d with
      | .error s => (none, some (.decodeErr s))
      | .ok r => decodeLoop decode ds (acc ++ [r])

/-- Controller `genericObjectDBCtrl.List`: AND filter from the selector map, then the
decode loop over the cursor.  The pair mirrors the Go `([]T, error)`
return, with `none` standing for a nil slice. -/
def ListOp (decode : Doc → Except String Rec) (coll : Coll)
    (sels : List (String × Val)) : Option (List Rec) × Option MErr :=
  decodeLoop decode (findManyDocs coll (buildFilter sels)) []

/-- Controller `genericObjectDBCtrl.ListAll`: same loop, but over the cursor of the
fixed filter `bson.D{bson.E{}}` = `{"": null}`. -/
def ListAllOp (decode : Doc → Except String Rec) (coll : Coll) :
    Option (List Rec) × Option MErr :=
  decodeLoop decode (findManyDocs coll listAllFilter) []

/-- A Go `context.Context` value: either the distinguished
`context.Background()` or a caller-supplied context (identified by a tag). -/
inductive Ctx where
  | background
  | caller (n : Nat)
deriving DecidableEq, Repr

/-- One driver call issued by a controller operation, tagged with the
context value the code passes to it. -/
inductive StoreCall where
  | insertOne (ctx : Ctx)
  | findOne (ctx : Ctx) (filter : List (String × Val))
  | updateOne (ctx : Ctx) (id : Val)
  | updateMany (ctx : Ctx) (filter : List (String × Val))
  | deleteOne (ctx : Ctx) (id : Val)
  | deleteMany (ctx : Ctx) (filter : List (String × Val))
  | findMany (ctx : Ctx) (filter : List (String × Val))
  | createIndexOne (ctx : Ctx) (keys : List (String × Int)) (unique : Bool)
deriving DecidableEq, Repr

/-- Driver calls of `Create`: the single `c.db.InsertOne(ctx, &item)`. -/
def createCalls (ctx : Ctx) : List StoreCall := [.insertOne ctx]

/-- Driver calls of `Get`: the single `c.db.FindOne(ctx, filter)` with the
equality filter on `_id`. -/
def getCalls (ctx : Ctx) (id : Val) : List StoreCall :=
  [.findOne ctx [("_id", id)]]

/-- Driver calls of `Find`: the single `c.db.FindOne(ctx, filter)`. -/
def findCalls (ctx : Ctx) (sels : List (String × Val)) : List StoreCall :=
  [.findOne ctx (buildFilter sels)]

/-- Driver calls of `Exists`: those of the wrapped `c.Find(ctx, sels)`. -/
def existsCalls (ctx : Ctx) (sels : List (String × Val)) : List StoreCall :=
  findCalls ctx sels

/-- Driver calls of `Update`: `c.db.UpdateOne(ctx, ...)`, reached unless
marshalling already failed. -/
def updateCalls (marshalFault : Option String) (ctx : Ctx) (id : Val) :
    List StoreCall :=
  match marshalFault with
  | some _ => []
  | none => [.updateOne ctx id]

/-- Driver calls of `UpdateAttributes`: `c.db.UpdateMany(ctx, ...)`,
reached unless marshalling already failed. -/
def updateAttributesCalls (marshalFault : Option String) (ctx : Ctx)
    (sels : List (String × Val)) : List StoreCall :=
  match marshalFault with
  | some _ => []
  | none => [.updateMany ctx (buildFilter sels)]

/-- Driver calls of `Delete`: the single `c.db.DeleteOne(ctx, filter)`. -/
def deleteCalls (ctx : Ctx) (id : Val) : List StoreCall := [.deleteOne ctx id]

/-- Driver calls of `DeleteRange`: the single `c.db.DeleteMany(ctx, filter)`. -/
def deleteRangeCalls (ctx : Ctx) (sels : List (String × Val)) : List StoreCall :=
  [.deleteMany ctx (buildFilter sels)]

/-- Driver calls of `ListAll`: the single `c.db.Find(ctx, filter)`. -/
def listAllCalls (ctx : Ctx) : List StoreCall := [.findMany ctx listAllFilter]

/-- Driver calls of `List`: the single `c.db.Find(ctx, filter)`. -/
def listCalls (ctx : Ctx) (sels : List (String × Val)) : List StoreCall :=
  [.findMany ctx (buildFilter sels)]

/-- The index-key loop of `CreateIndex`. -/
def buildIndexKeys (sels : List (String × Int)) : List (String × Int) :=
  sels.foldl (fun acc kv => acc ++ [kv]) []

/-- Driver calls of `CreateIndex`: the code invokes
`c.db.Indexes().CreateOne(context.Background(), indexModel)` — it discards
the caller-supplied `ctx` parameter and passes a fresh background context. -/
def createIndexCalls (_ctx : Ctx) (sels : List (String × Int)) (unique : Bool) :
    List StoreCall :=
  [.createIndexOne Ctx.background (buildIndexKeys sels) unique]

/-- One call issued by the connector, tagged with the context passed. -/
inductive ConnectCall where
  | mongoConnect (ctx : Ctx) (url : String)
  | ping (ctx : Ctx)
deriving DecidableEq, Repr

/-- The handle `Connect` returns on success: the constructed client scoped
to the requested logical database name (`dbClient.Database(dbName)`). -/
structure Database where
  clientId : Nat
  name : String
deriving DecidableEq, Repr

/-- Connector `Connect(ctx, dbConnectionUrl, dbName)`: constructs the client
(`mongo.Connect`), then synchronously pings it; each step's failure is
wrapped with its own fixed message prefix and returned at once.  The
environment is abstracted by `connectRes` (outcome of `mongo.Connect`,
yielding a client id) and `pingRes` (outcome of `Ping` on that client).
The call trace records every driver interaction performed. -/
def Connect (connectRes : Except String Nat) (pingRes : Nat → Option String)
    (ctx : Ctx) (url : String) (dbName : String) :
    List ConnectCall × Except String Database :=
  match connectRes with
  | .error e =>
      ([.mongoConnect ctx url], .error ("failed to mongo.Connect: " ++ e))
  | .ok client =>
      match pingRes client with
      | some e =>
          ([.mongoConnect ctx url, .ping ctx],
           .error ("failed to dbClient.Ping: " ++ e))
      | none =>
          ([.mongoConnect ctx url, .ping ctx], .ok ⟨client, dbName⟩)

/-! Helper lemmas about the driver model. -/

theorem foldl_append_singletons (sels : List (String × Val)) :
    ∀ acc : List (String × Val),
      List.foldl (fun acc kv => acc ++ [kv]) acc sels = acc ++ sels := by
  induction sels with
  | nil => intro acc; simp
  | cons kv rest ih =>
      intro acc
      rw [List.foldl_cons, ih, List.append_assoc, List.singleton_append]

theorem buildFilter_eq (sels : List (String × Val)) : buildFilter sels = sels := by
  rw [buildFilter, foldl_append_singletons, List.nil_append]

theorem matchesFilter_nil (d : Doc) : matchesFilter d [] = true := rfl

theorem findManyDocs_nilFilter (coll : Coll) : findManyDocs coll [] = coll := by
  unfold findManyDocs
  induction coll with
  | nil => rfl
  | cons d rest ih => simp [List.filter, matchesFilter_nil, ih]

theorem lookupField_map_set (d : Doc) (k : String) (v : Val)
    (h : d.any (fun kv => kv.1 = k) = true) :
    lookupField (d.map (fun kv => if kv.1 = k then (k, v) else kv)) k = some v := by
  induction d with
  | nil => simp at h
  | cons kv rest ih =>
      rw [List.map_cons]
      by_cases hk : kv.1 = k
      · rw [if_pos hk]
        simp [lookupField]
      · rw [if_neg hk]
        simp only [List.any_cons, decide_eq_true_eq, Bool.or_eq_true] at h
        have h' := h.resolve_left hk
        simp [lookupField, hk, ih h']

theorem lookupField_append_new (d : Doc) (k : String) (v : Val)
    (h : d.any (fun kv => kv.1 = k) = false) :
    lookupField (d ++ [(k, v)]) k = some v := by
  induction d with
  | nil => simp [lookupField]
  | cons kv rest ih =>
      simp only [List.any_cons, Bool.or_eq_false_iff, decide_eq_false_iff_not] at h
      simp [lookupField, h.1, ih (by simpa using h.2)]

theorem lookupField_setField (d : Doc) (k : String) (v : Val) :
    lookupField (setField d k v) k = some v := by
  unfold setField
  by_cases h : d.any (fun kv => kv.1 = k) = true
  · simp only [h, if_true]
    exact lookupField_map_set d k v h
  · simp only [Bool.not_eq_true] at h
    simp only [h, Bool.false_eq_true, if_false]
    exact lookupField_append_new d k v h

theorem updateOneById_no_match (coll : Coll) (id : Val) (u : Doc)
    (h : ∀ d ∈ coll, lookupField d "_id" ≠ some id) :
    updateOneById coll id u = coll := by
  induction coll with
  | nil => rfl
  | cons d rest ih =>
      unfold updateOneById
      have hd : ¬ lookupField d "_id" = some id := h d (List.mem_cons_self d rest)
      simp only [hd, if_false]
      rw [ih (fun d' hd' => h d' (List.mem_cons_of_mem d hd'))]

theorem stampCreate_createdAt_some (now : Nat) (r : Rec) (c : Nat)
    (h : r.createdAt = some c) : (stampCreate now r).createdAt = some now := by
  cases hu : r.updatedAt <;> simp [stampCreate, h, hu]

theorem stampCreate_updatedAt_some (now : Nat) (r : Rec) (u : Nat)
    (h : r.updatedAt = some u) : (stampCreate now r).updatedAt = some now := by
  cases hc : r.createdAt <;> simp [stampCreate, h, hc]

theorem stampCreate_absent (now : Nat) (r : Rec)
    (hc : r.createdAt = none) (hu : r.updatedAt = none) :
    stampCreate now r = r := by
  simp [stampCreate, hc, hu]

theorem stampUpdate_updatedAt_some (now : Nat) (r : Rec) (u : Nat)
    (h : r.updatedAt = some u) : (stampUpdate now r).updatedAt = some now := by
  simp [stampUpdate, h]

theorem stampUpdate_createdAt (now : Nat) (r : Rec) :
    (stampUpdate now r).createdAt = r.createdAt := by
  cases h : r.updatedAt <;> simp [stampUpdate, h]

theorem stampUpdate_absent (now : Nat) (r : Rec) (h : r.updatedAt = none) :
    stampUpdate now r = r := by
  simp [stampUpdate, h]

theorem CreateOp_item (insertFault : Option MErr) (now : Nat) (coll : Coll)
    (item : Rec) : (CreateOp insertFault now coll item).item = stampCreate now item := by
  cases insertFault <;> rfl

theorem UpdateOp_item (marshalFault : Option String) (storeFault : Option MErr)
    (now : Nat) (coll : Coll) (id : Val) (item : Rec) :
    (UpdateOp marshalFault storeFault now coll id item).item = stampUpdate now item := by
  cases marshalFault <;> cases storeFault <;> rfl

theorem UpdateAttributesOp_attrs (marshalFault : Option String)
    (storeFault : Option MErr) (now : Nat) (coll : Coll)
    (sels attrs : List (String × Val)) :
    (UpdateAttributesOp marshalFault storeFault now coll sels attrs).attrs =
      setField attrs "updated_at" (Val.vtime now) := by
  cases marshalFault <;> cases storeFault <;> rfl

theorem decodeLoop_ok_some (decode : Doc → Except String Rec) (ds : List Doc) :
    ∀ acc : List Rec, (decodeLoop decode ds acc).2 = none →
      ∃ l, (decodeLoop decode ds acc).1 = some l := by
  induction ds with
  | nil => intro acc _; exact ⟨acc, rfl⟩
  | cons d rest ih =>
      intro acc h
      cases hd : decode d with
      | error s => rw [decodeLoop, hd] at h; simp at h
      | ok r =>
          rw [decodeLoop, hd] at h ⊢
          exact ih (acc ++ [r]) h

theorem connect_error_msgs_distinct (e : String) :
    ("failed to mongo.Connect: " ++ e) ≠ ("failed to dbClient.Ping: " ++ e) := by
  intro hEq
  have hd : ("failed to mongo.Connect: " ++ e).data =
      ("failed to dbClient.Ping: " ++ e).data := by rw [hEq]
  rw [String.data_append, String.data_append] at hd
  have hlen : ("failed to mongo.Connect: ").data.length =
      ("failed to dbClient.Ping: ").data.length := by decide
  exact absurd (List.append_inj hd hlen).1 (by decide)

/-! Claim theorems. -/

/-- C1: the claim says every controller operation propagates the
caller-supplied context unmodified to its store call, in particular that
`CreateIndex` passes the caller's `ctx` to the index-creation call.  The
code of `CreateIndex` instead invokes
`c.db.Indexes().CreateOne(context.Background(), indexModel)`: at a caller
context distinct from the background context, the single store call it
issues carries `Ctx.background`, not the caller's context. -/
theorem c1_createIndex_uses_background_ctx :
    createIndexCalls (Ctx.caller 1) [("field", 1)] true =
      [StoreCall.createIndexOne Ctx.background [("field", 1)] true] ∧
    StoreCall.createIndexOne Ctx.background [("field", 1)] true ≠
      StoreCall.createIndexOne (Ctx.caller 1) [("field", 1)] true :=
  ⟨rfl, by decide⟩

/-- C2: when the identifier matches no document in the collection,
`Update` returns no error and leaves the collection unchanged (the
`UpdateOne` call simply matches zero documents). -/
theorem c2_update_missing_id_silent_noop
    (now : Nat) (coll : Coll) (id : Val) (item : Rec)
    (h : ∀ d ∈ coll, lookupField d "_id" ≠ some id) :
    (UpdateOp none none now coll id item).err = none ∧
    (UpdateOp none none now coll id item).coll = coll := by
  refine ⟨rfl, ?_⟩
  show updateOneById coll id (marshalRec (stampUpdate now item)) = coll
  exact updateOneById_no_match coll id _ h

theorem c2_witness :
    (UpdateOp none none 5 [[("_id", Val.vint 1)]] (Val.vint 2)
        ⟨none, some 0, [("x", Val.vint 3)]⟩).err = none ∧
    (UpdateOp none none 5 [[("_id", Val.vint 1)]] (Val.vint 2)
        ⟨none, some 0, [("x", Val.vint 3)]⟩).coll = [[("_id", Val.vint 1)]] :=
  c2_update_missing_id_silent_noop 5 [[("_id", Val.vint 1)]] (Val.vint 2)
    ⟨none, some 0, [("x", Val.vint 3)]⟩ (by decide)

/-- C6: `Create` stamps both `CreatedAt` and `UpdatedAt` to the call's
current time when the record's type declares them settable; `Update`
refreshes only `UpdatedAt` and leaves `CreatedAt` untouched; the
caller-supplied values of the stamped attributes are overwritten
regardless of what they were; a record lacking both attributes passes
through the stamping unmodified. -/
theorem c6_timestamp_stamping
    (insertFault : Option MErr) (marshalFault : Option String)
    (storeFault : Option MErr) (now : Nat) (coll : Coll) (id : Val) (item : Rec) :
    (∀ c, item.createdAt = some c →
       (CreateOp insertFault now coll item).item.createdAt = some now) ∧
    (∀ u, item.updatedAt = some u →
       (CreateOp insertFault now coll item).item.updatedAt = some now) ∧
    (∀ u, item.updatedAt = some u →
       (UpdateOp marshalFault storeFault now coll id item).item.updatedAt = some now) ∧
    ((UpdateOp marshalFault storeFault now coll id item).item.createdAt =
       item.createdAt) ∧
    (item.createdAt = none → item.updatedAt = none →
       (CreateOp insertFault now coll item).item = item ∧
       (UpdateOp marshalFault storeFault now coll id item).item = item) := by
  refine ⟨?_, ?_, ?_, ?_, ?_⟩
  · intro c hc
    rw [CreateOp_item]
    exact stampCreate_createdAt_some now item c hc
  · intro u hu
    rw [CreateOp_item]
    exact stampCreate_updatedAt_some now item u hu
  · intro u hu
    rw [UpdateOp_item]
    exact stampUpdate_updatedAt_some now item u hu
  · rw [UpdateOp_item]
    exact stampUpdate_createdAt now item
  · intro hc hu
    rw [CreateOp_item, UpdateOp_item]
    exact ⟨stampCreate_absent now item hc hu, stampUpdate_absent now item hu⟩

theorem c6_witness :
    (CreateOp none 7 [] ⟨some 1, some 2, []⟩).item.createdAt = some 7 ∧
    (CreateOp none 7 [] ⟨some 1, some 2, []⟩).item.updatedAt = some 7 ∧
    (UpdateOp none none 7 [] (Val.vint 0) ⟨some 1, some 2, []⟩).item.updatedAt = some 7 ∧
    (UpdateOp none none 7 [] (Val.vint 0) ⟨some 1, some 2, []⟩).item.createdAt = some 1 ∧
    (CreateOp none 7 [] ⟨none, none, [("x", Val.vint 3)]⟩).item =
      ⟨none, none, [("x", Val.vint 3)]⟩ := by
  have h1 := c6_timestamp_stamping none none none 7 [] (Val.vint 0)
    ⟨some 1, some 2, []⟩
  have h2 := c6_timestamp_stamping none none none 7 [] (Val.vint 0)
    ⟨none, none, [("x", Val.vint 3)]⟩
  exact ⟨h1.1 1 rfl, h1.2.1 2 rfl, h1.2.2.1 2 rfl, h1.2.2.2.1,
    (h2.2.2.2.2 rfl rfl).1⟩

/-- C9: `UpdateAttributes` mutates the caller-supplied attribute map in
place: in every outcome (serialization failure, store failure, success)
the map afterwards binds the reserved key `updated_at` to the time taken
at the call, overwriting any caller-stored value. -/
theorem c9_updateAttributes_mutates_attrs
    (marshalFault : Option String) (storeFault : Option MErr) (now : Nat)
    (coll : Coll) (sels attrs : List (String × Val)) :
    lookupField
        (UpdateAttributesOp marshalFault storeFault now coll sels attrs).attrs
        "updated_at" = some (Val.vtime now) := by
  rw [UpdateAttributesOp_attrs]
  exact lookupField_setField attrs "updated_at" (Val.vtime now)

/-- C10: `Create` and `Update` stamp the caller's record in place before
the store call, so the caller observes the stamped values whatever the
store call's outcome (the fault parameters are arbitrary); at `Create`
the two timestamps receive the identical value `now`. -/
theorem c10_inplace_stamping
    (insertFault : Option MErr) (marshalFault : Option String)
    (storeFault : Option MErr) (now : Nat) (coll coll2 : Coll) (id : Val)
    (item item2 : Rec) (c u u2 : Nat)
    (hc : item.createdAt = some c) (hu : item.updatedAt = some u)
    (hu2 : item2.updatedAt = some u2) :
    (CreateOp insertFault now coll item).item.createdAt = some now ∧
    (CreateOp insertFault now coll item).item.updatedAt = some now ∧
    (UpdateOp marshalFault storeFault now coll2 id item2).item.updatedAt =
      some now := by
  rw [CreateOp_item, UpdateOp_item]
  exact ⟨stampCreate_createdAt_some now item c hc,
    stampCreate_updatedAt_some now item u hu,
    stampUpdate_updatedAt_some now item2 u2 hu2⟩

theorem c10_witness :
    (CreateOp (some (.driverErr "dup key")) 9 [] ⟨some 1, some 2, []⟩).item.createdAt =
      some 9 ∧
    (CreateOp (some (.driverErr "dup key")) 9 [] ⟨some 1, some 2, []⟩).item.updatedAt =
      some 9 ∧
    (UpdateOp none (some (.driverErr "net")) 9 [] (Val.vint 0)
        ⟨some 3, some 4, []⟩).item.updatedAt = some 9 :=
  c10_inplace_stamping (some (.driverErr "dup key")) none
    (some (.driverErr "net")) 9 [] [] (Val.vint 0) ⟨some 1, some 2, []⟩
    ⟨some 3, some 4, []⟩ 1 2 4 rfl rfl rfl

/-- C3: `Exists` translates the driver's no-documents condition from the
wrapped `Find` into the successful triple `(nil, false, nil)` — in
particular a selector matching zero documents never yields an error —
propagates any other `Find` error, and returns `(record, true, nil)` when
`Find` succeeds. -/
theorem c3_exists_error_translation
    (decode : Doc → Except String Rec) (coll : Coll)
    (sels : List (String × Val)) :
    ((∀ d ∈ coll, matchesFilter d (buildFilter sels) = false) →
       ExistsOp decode coll sels = (none, false, none)) ∧
    (∀ e, FindOp decode coll sels = .error e → e ≠ .errNoDocuments →
       ExistsOp decode coll sels = (none, false, some e)) ∧
    (∀ r, FindOp decode coll sels = .ok r →
       ExistsOp decode coll sels = (some r, true, none)) := by
  refine ⟨?_, ?_, ?_⟩
  · intro h
    have hfind : findOneDoc coll (buildFilter sels) = none := by
      unfold findOneDoc
      refine List.find?_eq_none.mpr ?_
      intro d hd
      simp [h d hd]
    unfold ExistsOp FindOp
    rw [hfind]
    rfl
  · intro e he hne
    unfold ExistsOp
    rw [he]
    simp [hne]
  · intro r hr
    unfold ExistsOp
    rw [hr]

theorem c3_witness :
    ExistsOp (fun _ => .ok ⟨none, none, []⟩) [] [("k", Val.vint 1)] =
      (none, false, none) ∧
    ExistsOp (fun _ => .error "bad doc") [[("k", Val.vint 1)]]
        [("k", Val.vint 1)] = (none, false, some (.decodeErr "bad doc")) ∧
    ExistsOp (fun _ => .ok ⟨none, none, []⟩) [[("k", Val.vint 1)]]
        [("k", Val.vint 1)] = (some ⟨none, none, []⟩, true, none) := by
  refine ⟨?_, ?_, ?_⟩
  · exact (c3_exists_error_translation (fun _ => .ok ⟨none, none, []⟩) []
      [("k", Val.vint 1)]).1 (by intro d hd; cases hd)
  · exact (c3_exists_error_translation (fun _ => .error "bad doc")
      [[("k", Val.vint 1)]] [("k", Val.vint 1)]).2.1
      (.decodeErr "bad doc") rfl (by decide)
  · exact (c3_exists_error_translation (fun _ => .ok ⟨none, none, []⟩)
      [[("k", Val.vint 1)]] [("k", Val.vint 1)]).2.2 ⟨none, none, []⟩ rfl

/-- C4: the empty selector map makes Find/List/Exists build the empty
filter, which matches every document: `List` returns the whole collection
to the decode loop, and on a non-empty collection `Find`/`Exists` see the
first document instead of a not-found failure. -/
theorem c4_empty_selector_unconstrained
    (decode : Doc → Except String Rec) (d : Doc) (rest : List Doc)
    (coll : Coll) :
    buildFilter ([] : List (String × Val)) = [] ∧
    matchesFilter d (buildFilter []) = true ∧
    findManyDocs coll (buildFilter []) = coll ∧
    findOneDoc (d :: rest) (buildFilter []) = some d ∧
    FindOp decode (d :: rest) [] ≠ .error .errNoDocuments ∧
    (∀ r, decode d = .ok r →
       FindOp decode (d :: rest) [] = .ok r ∧
       ExistsOp decode (d :: rest) [] = (some r, true, none)) := by
  have hb : buildFilter ([] : List (String × Val)) = [] := rfl
  have hfo : findOneDoc (d :: rest) (buildFilter []) = some d := by
    rw [hb]
    unfold findOneDoc
    exact List.find?_cons_of_pos rest (matchesFilter_nil d)
  refine ⟨hb, by rw [hb]; exact matchesFilter_nil d,
    by rw [hb]; exact findManyDocs_nilFilter coll, hfo, ?_, ?_⟩
  · unfold FindOp
    rw [hfo]
    cases hd : decode d <;> simp [hd]
  · intro r hr
    have hfind : FindOp decode (d :: rest) [] = .ok r := by
      unfold FindOp
      rw [hfo]
      simp [hr]
    refine ⟨hfind, ?_⟩
    unfold ExistsOp
    rw [hfind]

theorem c4_witness :
    findOneDoc [[("a", Val.vint 1)], [("b", Val.vint 2)]]
        (buildFilter []) = some [("a", Val.vint 1)] ∧
    ExistsOp (fun dd => .ok ⟨none, none, dd⟩)
        [[("a", Val.vint 1)], [("b", Val.vint 2)]] [] =
      (some ⟨none, none, [("a", Val.vint 1)]⟩, true, none) := by
  have h := c4_empty_selector_unconstrained (fun dd => .ok ⟨none, none, dd⟩)
    [("a", Val.vint 1)] [[("b", Val.vint 2)]] [[("a", Val.vint 1)]]
  exact ⟨h.2.2.2.1, (h.2.2.2.2.2 ⟨none, none, [("a", Val.vint 1)]⟩ rfl).2⟩

/-- C5 counterexample: the filter `ListAll` submits is `bson.D{bson.E{}}`,
i.e. the single-pair query `{"": null}`, not the unconstrained empty
filter: it excludes a document binding the empty field name to a non-null
value, and on a collection holding exactly such a document `ListAll`
returns the empty slice rather than every document. -/
theorem c5_counterexample :
    listAllFilter ≠ [] ∧
    matchesFilter [("", Val.vint 5)] listAllFilter = false ∧
    findManyDocs [[("", Val.vint 5)]] listAllFilter = [] ∧
    ListAllOp (fun dd => .ok ⟨none, none, dd⟩) [[("", Val.vint 5)]] =
      (some [], none) :=
  ⟨by decide, by decide, by decide, rfl⟩

/-- C5 (amended): `ListAll` submits the single-pair filter `{"": null}`
rather than the empty filter; that filter matches exactly the documents
whose empty-named field is absent or null, so on every collection in which
no document binds the empty field name the cursor holds the whole
collection and every document reaches the decode loop. -/
theorem c5_listAll_filter_amended
    (decode : Doc → Except String Rec) (coll : Coll)
    (h : ∀ d ∈ coll, lookupField d "" = none) :
    listAllFilter = [("", Val.vnull)] ∧
    (∀ d ∈ coll, matchesFilter d listAllFilter = true) ∧
    findManyDocs coll listAllFilter = coll ∧
    ListAllOp decode coll = decodeLoop decode coll [] := by
  have hm : ∀ d ∈ coll, matchesFilter d listAllFilter = true := by
    intro d hd
    simp [matchesFilter, listAllFilter, fieldMatches, h d hd]
  have hf : findManyDocs coll listAllFilter = coll := by
    unfold findManyDocs
    exact List.filter_eq_self.mpr hm
  refine ⟨rfl, hm, hf, ?_⟩
  show decodeLoop decode (findManyDocs coll listAllFilter) [] = decodeLoop decode coll []
  rw [hf]

theorem c5_witness :
    findManyDocs [[("a", Val.vint 1)], [("b", Val.vint 2)]] listAllFilter =
      [[("a", Val.vint 1)], [("b", Val.vint 2)]] :=
  (c5_listAll_filter_amended (fun _ => .ok ⟨none, none, []⟩)
    [[("a", Val.vint 1)], [("b", Val.vint 2)]] (by decide)).2.2.1

/-- C7: `List` and `ListAll` allocate the result slice before the cursor
loop, so on success (nil error) the returned slice is non-nil; when the
cursor is empty — in particular on the empty collection — they return the
empty slice and a nil error. -/
theorem c7_list_nonnil_empty
    (decode : Doc → Except String Rec) (coll : Coll)
    (sels : List (String × Val)) :
    ((ListOp decode coll sels).2 = none →
       ∃ l, (ListOp decode coll sels).1 = some l) ∧
    ((ListAllOp decode coll).2 = none →
       ∃ l, (ListAllOp decode coll).1 = some l) ∧
    (findManyDocs coll (buildFilter sels) = [] →
       ListOp decode coll sels = (some [], none)) ∧
    (findManyDocs coll listAllFilter = [] →
       ListAllOp decode coll = (some [], none)) ∧
    ListOp decode [] sels = (some [], none) ∧
    ListAllOp decode [] = (some [], none) := by
  refine ⟨?_, ?_, ?_, ?_, rfl, rfl⟩
  · exact decodeLoop_ok_some decode _ []
  · exact decodeLoop_ok_some decode _ []
  · intro hf
    show decodeLoop decode (findManyDocs coll (buildFilter sels)) [] = (some [], none)
    rw [hf]
    rfl
  · intro hf
    show decodeLoop decode (findManyDocs coll listAllFilter) [] = (some [], none)
    rw [hf]
    rfl

theorem c7_witness :
    ListOp (fun _ => .ok ⟨none, none, []⟩) [[("a", Val.vint 1)]]
        [("b", Val.vint 2)] = (some [], none) :=
  (c7_list_nonnil_empty (fun _ => .ok ⟨none, none, []⟩) [[("a", Val.vint 1)]]
    [("b", Val.vint 2)]).2.2.1 (by decide)

/-- C8: `Connect` makes a single attempt — its trace is the construction
call alone (when construction fails) or construction followed by one ping,
never more, and no schema/setup call; construction failure and ping
failure are surfaced at once as errors of the same kind, distinguished
only by the wrapped message (the two messages differ for every wrapped
error); on success the returned handle is scoped to the requested
database name. -/
theorem c8_connect_single_attempt
    (connectRes : Except String Nat) (pingRes : Nat → Option String)
    (ctx : Ctx) (url dbName : String) :
    ((Connect connectRes pingRes ctx url dbName).1 =
        [.mongoConnect ctx url] ∨
     (Connect connectRes pingRes ctx url dbName).1 =
        [.mongoConnect ctx url, .ping ctx]) ∧
    (∀ e, connectRes = .error e →
       Connect connectRes pingRes ctx url dbName =
         ([.mongoConnect ctx url],
          .error ("failed to mongo.Connect: " ++ e))) ∧
    (∀ client e, connectRes = .ok client → pingRes client = some e →
       Connect connectRes pingRes ctx url dbName =
         ([.mongoConnect ctx url, .ping ctx],
          .error ("failed to dbClient.Ping: " ++ e))) ∧
    (∀ client, connectRes = .ok client → pingRes client = none →
       Connect connectRes pingRes ctx url dbName =
         ([.mongoConnect ctx url, .ping ctx], .ok ⟨client, dbName⟩)) ∧
    (∀ e, ("failed to mongo.Connect: " ++ e) ≠
       ("failed to dbClient.Ping: " ++ e)) := by
  refine ⟨?_, ?_, ?_, ?_, connect_error_msgs_distinct⟩
  · cases hc : connectRes with
    | error e => exact Or.inl rfl
    | ok client =>
        refine Or.inr ?_
        rw [Connect]
        cases hp : pingRes client <;> simp [hp]
  · intro e he
    subst he
    rfl
  · intro client e hc hp
    subst hc
    rw [Connect, hp]
  · intro client hc hp
    subst hc
    rw [Connect, hp]

theorem c8_witness :
    Connect (.error "refused") (fun _ => none) (Ctx.caller 0) "mongodb://h"
        "appdb" =
      ([.mongoConnect (Ctx.caller 0) "mongodb://h"],
       .error ("failed to mongo.Connect: " ++ "refused")) ∧
    Connect (.ok 3) (fun _ => none) (Ctx.caller 0) "mongodb://h" "appdb" =
      ([.mongoConnect (Ctx.caller 0) "mongodb://h", .ping (Ctx.caller 0)],
       .ok ⟨3, "appdb"⟩) ∧
    ("failed to mongo.Connect: " ++ "refused") ≠
      ("failed to dbClient.Ping: " ++ "refused") := by
  refine ⟨?_, ?_, ?_⟩
  · exact (c8_connect_single_attempt (.error "refused") (fun _ => none)
      (Ctx.caller 0) "mongodb://h" "appdb").2.1 "refused" rfl
  · exact (c8_connect_single_attempt (.ok 3) (fun _ => none) (Ctx.caller 0)
      "mongodb://h" "appdb").2.2.2.1 3 rfl rfl
  · exact (c8_connect_single_attempt (.ok 3) (fun _ => none) (Ctx.caller 0)
      "mongodb://h" "appdb").2.2.2.2 "refused"

end Mongodb
